import Mathlib

/-!
Verification of the portfolio backtest engine's natural-language specification
against its Python sources (`backend/config.py`, `backend/metrics.py`,
`backend/etf_data.py`), via a shallow embedding.

Modelling conventions:
* Python floats are idealised as rational numbers (`ℚ`); a float result that is
  not a finite number (NaN from `0/0` or from a NumPy power with negative base
  and non-integral exponent, the NaN produced by pandas aggregations over empty
  or too-short series, pandas `std` with fewer than two observations) is
  modelled as `none : Option ℚ` / `none : Option ℝ`.  Real-valued operations
  (square roots, fractional powers) live in `ℝ`.
* Python exceptions are modelled with `Except PyError`; a module body or a
  method that can raise is a value of `Except PyError α`.
* Python strings are modelled as `List Char`, dates in the data layer as `ℤ`.
* pandas `Series.pct_change(periods=k)` keeps the length of its input and
  yields a missing value (NaN) for the first `k` positions and whenever the
  shifted denominator is missing; `dropna` removes the missing entries.
-/

/-- Python exception values that the embedded code can produce.  The
constructors `domainError` and `insufficientHistoryError` come from the spec's
error taxonomy (§7); the development shows the source never produces them. -/
inductive PyError where
  | valueError (msg : String)
  | indexError
  | attributeError (msg : String)
  | domainError
  | insufficientHistoryError
deriving DecidableEq

/-! ## config.py -/

/-- A `datetime.datetime` value (date part only; the module only builds dates). -/
structure PyDatetime where
  year : ℕ
  month : ℕ
  day : ℕ
deriving DecidableEq

/-- Gregorian leap-year rule used by `datetime`'s day-of-month validation. -/
def isLeapYear (y : ℕ) : Bool :=
  (y % 4 == 0 && y % 100 != 0) || y % 400 == 0

/-- Number of days of month `m` in year `y` (Gregorian calendar). -/
def daysInMonth (y m : ℕ) : ℕ :=
  if m = 2 then (if isLeapYear y then 29 else 28)
  else if m = 4 ∨ m = 6 ∨ m = 9 ∨ m = 11 then 30
  else 31

/-- The `datetime.datetime(year, month, day)` constructor: it validates the
field ranges and raises `ValueError` when the day does not exist in the
given month. -/
def datetimeMk (y m d : ℕ) : Except PyError PyDatetime :=
  if ¬ (1 ≤ y ∧ y ≤ 9999) then Except.error (PyError.valueError "year is out of range")
  else if ¬ (1 ≤ m ∧ m ≤ 12) then Except.error (PyError.valueError "month must be in 1..12")
  else if ¬ (1 ≤ d ∧ d ≤ daysInMonth y m) then
    Except.error (PyError.valueError "day is out of range for month")
  else Except.ok { year := y, month := m, day := d }

/-- `config.RISK_FREE_RATE = 0.02` (config.py line 41). -/
def RISK_FREE_RATE : ℚ := 2 / 100

/-- `config.TRADING_DAYS_PER_YEAR = 252` (config.py line 42). -/
def TRADING_DAYS_PER_YEAR : ℕ := 252

/-- The module-level date constants of `config.py`. -/
structure ConfigModule where
  DEFAULT_START_DATE : PyDatetime
  DEFAULT_END_DATE : PyDatetime
deriving DecidableEq

/-- Executing the module body of `config.py`: line 25 builds
`datetime(2000, 1, 1)` and line 26 builds `datetime(2025, 6, 31)`; an
exception in either aborts the import. -/
def configModuleInit : Except PyError ConfigModule := do
  let startDate ← datetimeMk 2000 1 1
  let endDate ← datetimeMk 2025 6 31
  Except.ok { DEFAULT_START_DATE := startDate, DEFAULT_END_DATE := endDate }

/-- Executing the module body of `metrics.py`: line 7 runs
`from config import RISK_FREE_RATE, TRADING_DAYS_PER_YEAR`, which executes
`config.py`'s module body and propagates its exception. -/
def metricsModuleInit : Except PyError Unit := do
  let _ ← configModuleInit
  Except.ok ()

/-- Executing the module body of `etf_data.py`: lines 14-19 run
`from config import (DATA_DIR, ...)`, which executes `config.py`'s module
body and propagates its exception. -/
def etfDataModuleInit : Except PyError Unit := do
  let _ ← configModuleInit
  Except.ok ()

/-- C1: `DEFAULT_END_DATE = datetime(2025, 6, 31)` raises `ValueError`
(June has 30 days), so importing `config` fails, and with it the imports
performed by `metrics.py` and `etf_data.py`: no module of the program can be
loaded, hence no operation can be invoked. -/
theorem config_import_fails_everywhere :
    daysInMonth 2025 6 = 30 ∧
    configModuleInit = Except.error (PyError.valueError "day is out of range for month") ∧
    metricsModuleInit = Except.error (PyError.valueError "day is out of range for month") ∧
    etfDataModuleInit = Except.error (PyError.valueError "day is out of range for month") :=
  ⟨rfl, rfl, rfl, rfl⟩

/-! ## metrics.py: data model -/

/-- pandas `dropna` on a series whose missing entries are `none`. -/
def dropna (l : List (Option ℚ)) : List ℚ := l.filterMap id

/-- pandas `Series.pct_change(periods=k)` on a series of plain numbers:
the result has the length of the input, its first `k` entries are missing,
and entry `t` (for `k ≤ t`) is `v[t]/v[t-k] - 1`.  A zero shifted value
produces a non-finite float, modelled as a missing entry. -/
def pctChange (k : ℕ) (vs : List ℚ) : List (Option ℚ) :=
  (vs.take k).map (fun _ => none) ++
    List.zipWith (fun prev cur => if prev = 0 then none else some (cur / prev - 1))
      vs (vs.drop k)

/-- `PortfolioMetrics._calculate_returns` (metrics.py lines 35-37):
`values.pct_change().dropna()`. -/
def calculate_returns (values : List ℚ) : List ℚ :=
  dropna (pctChange 1 values)

/-- The state of a `PortfolioMetrics` object after `__init__`
(metrics.py lines 12-20). -/
structure PortfolioMetrics where
  portfolio_values : List ℚ
  benchmark_values : Option (List ℚ)
  returns : List ℚ
  benchmark_returns : Option (List ℚ)
deriving DecidableEq

/-- `PortfolioMetrics.__init__` (metrics.py lines 12-20): stores both series
and computes their daily returns.  The body contains no raise site (pandas
`pct_change`/`dropna` never raise), so construction always succeeds. -/
def PortfolioMetrics.init (portfolio_values : List ℚ)
    (benchmark_values : Option (List ℚ)) : PortfolioMetrics :=
  { portfolio_values := portfolio_values
    benchmark_values := benchmark_values
    returns := calculate_returns portfolio_values
    benchmark_returns := benchmark_values.map calculate_returns }

/-- pandas `Series.mean()`: NaN (missing) on an empty series. -/
def meanQ? (l : List ℚ) : Option ℚ :=
  if l.isEmpty then none else some (l.sum / l.length)

/-- pandas `Series.var(ddof=1)` (the variance under `Series.std()`):
missing when fewer than two observations are present. -/
def sampleVariance? (l : List ℚ) : Option ℚ :=
  if l.length < 2 then none
  else some ((l.map (fun x => (x - l.sum / l.length) ^ 2)).sum / ((l.length : ℚ) - 1))

/-- pandas `Series.std()` = square root of the `ddof=1` sample variance. -/
noncomputable def stdevQ? (l : List ℚ) : Option ℝ :=
  (sampleVariance? l).map (fun v : ℚ => Real.sqrt (v : ℝ))

/-- Division of Python floats, `none` for the non-finite result of a zero
denominator. -/
def qdiv? (a b : ℚ) : Option ℚ :=
  if b = 0 then none else some (a / b)

/-- NumPy float `**`: for a non-negative base it is real exponentiation; a
negative base with an integral exponent is an exact signed power; a negative
base with a non-integral exponent yields NaN (`none`). -/
noncomputable def npPowQ (b e : ℚ) : Option ℝ :=
  if 0 ≤ b then some ((b : ℝ) ^ (e : ℝ))
  else if e.den = 1 then some ((b : ℝ) ^ (e : ℝ))
  else none

/-! ## metrics.py: metric computations -/

/-- Result of `_calculate_return_metrics`. -/
structure ReturnMetrics where
  total_return : Option ℚ
  cagr : Option ℝ
  annualized_return : Option ℚ
  best_year : Option ℚ
  worst_year : Option ℚ
  total_days : ℕ
  years : ℚ

/-- `PortfolioMetrics._calculate_return_metrics` (metrics.py lines 39-59).
`iloc[-1]`/`iloc[0]` raise `IndexError` on an empty series; every numeric
step is NumPy float arithmetic, which never raises (non-finite results are
`none`).  The method reads `self` and assigns no attribute, so it returns the
object state unchanged. -/
noncomputable def calculate_return_metrics (pm : PortfolioMetrics) :
    Except PyError (PortfolioMetrics × ReturnMetrics) := do
  let vLast ← match pm.portfolio_values.getLast? with
    | some v => Except.ok v
    | none => Except.error PyError.indexError
  let vFirst ← match pm.portfolio_values.head? with
    | some v => Except.ok v
    | none => Except.error PyError.indexError
  let valueRatio := qdiv? vLast vFirst
  let years : ℚ := (pm.portfolio_values.length : ℚ) / (TRADING_DAYS_PER_YEAR : ℚ)
  let rolling_1y := dropna (pctChange TRADING_DAYS_PER_YEAR pm.portfolio_values)
  Except.ok (pm,
    { total_return := valueRatio.map (fun r => r - 1)
      cagr := valueRatio.bind (fun r => (npPowQ r (1 / years)).map (fun x => x - 1))
      annualized_return := (meanQ? pm.returns).map (fun m => m * (TRADING_DAYS_PER_YEAR : ℚ))
      best_year := rolling_1y.max?
      worst_year := rolling_1y.min?
      total_days := pm.portfolio_values.length
      years := years })

/-- Result of `_calculate_risk_metrics`. -/
structure RiskMetrics where
  volatility : Option ℝ
  sharpe_ratio : Option ℝ

/-- `PortfolioMetrics._calculate_risk_metrics` (metrics.py lines 61-66).
The source file shows `volatility = self.returns.std() * np.sqrt(252)`, the
elementwise series `excess_returns = self.returns - RISK_FREE_RATE/252` and
breaks off inside the `sharpe_ratio` assignment; the rest of the method is
Modelled from the spec: "Sharpe ratio = mean(daily returns −
risk_free_rate/TRADING_DAYS_PER_YEAR) / stdev(daily returns) ×
sqrt(TRADING_DAYS_PER_YEAR), undefined (null) when stdev is 0."  No raise
site; no attribute is assigned. -/
noncomputable def calculate_risk_metrics (pm : PortfolioMetrics) :
    PortfolioMetrics × RiskMetrics :=
  let excess_returns := pm.returns.map (fun r => r - RISK_FREE_RATE / (TRADING_DAYS_PER_YEAR : ℚ))
  (pm,
    { volatility := (stdevQ? pm.returns).map (fun s => s * Real.sqrt (TRADING_DAYS_PER_YEAR : ℝ))
      sharpe_ratio :=
        match sampleVariance? pm.returns, meanQ? excess_returns with
        | some v, some m =>
            if v = 0 then none
            else some ((m : ℝ) / Real.sqrt (v : ℝ) * Real.sqrt (TRADING_DAYS_PER_YEAR : ℝ))
        | _, _ => none })

/-- Running maximum continued from an already-seen maximum `m`. -/
def runningMaxFrom (m : ℚ) : List ℚ → List ℚ
  | [] => []
  | v :: vs => (max m v) :: runningMaxFrom (max m v) vs

/-- Running maximum of a value series. -/
def runningMax : List ℚ → List ℚ
  | [] => []
  | v :: vs => v :: runningMaxFrom v vs

/-- Drawdown series.  Modelled from the spec: "running maximum of the value
series; drawdown[t] = value[t]/running_max[t] − 1". -/
def drawdownSeries (vs : List ℚ) : List (Option ℚ) :=
  List.zipWith (fun v m => (qdiv? v m).map (fun r => r - 1)) vs (runningMax vs)

/-- Length of the longest contiguous run of negative entries. -/
def longestNegRun (l : List (Option ℚ)) : ℕ :=
  (l.foldl
    (fun acc x =>
      match x with
      | some q => if q < 0 then (max acc.1 (acc.2 + 1), acc.2 + 1) else (acc.1, 0)
      | none => (acc.1, 0))
    ((0 : ℕ), (0 : ℕ))).1

/-- Result of `_calculate_drawdown_metrics`. -/
structure DrawdownMetrics where
  max_drawdown : Option ℚ
  drawdown_duration : ℕ

/-- `PortfolioMetrics._calculate_drawdown_metrics`: called at metrics.py
line 28 but absent from the available source.  Modelled from the spec:
"running maximum of the value series; drawdown[t] = value[t]/running_max[t] − 1
(always ≤ 0); max_drawdown = min(drawdown); drawdown duration = longest
contiguous run of consecutive negative-drawdown days".  Pure arithmetic over
the stored series: no raise site, no attribute assignment. -/
def calculate_drawdown_metrics (pm : PortfolioMetrics) :
    PortfolioMetrics × DrawdownMetrics :=
  (pm,
    { max_drawdown := (dropna (drawdownSeries pm.portfolio_values)).min?
      drawdown_duration := longestNegRun (drawdownSeries pm.portfolio_values) })

/-- Rolling window size.  Modelled from the spec: "a configurable window
(default 252 trading days)". -/
def ROLLING_WINDOW : ℕ := 252

/-- Result of `_calculate_rolling_metrics`. -/
structure RollingMetrics where
  rolling_return : List (Option ℚ)
  rolling_volatility : List (Option ℝ)

/-- `PortfolioMetrics._calculate_rolling_metrics`: called at metrics.py
line 29 but absent from the available source.  Modelled from the spec:
"rolling volatility/return over a configurable window (default 252 trading
days), produced as a ... sequence of (date, value) pairs aligned to the later
date of each window; the first (window−1) days produce no rolling value".
The rolling return over the window ending at day `t` is
`value[t]/value[t-(w-1)] − 1`; the rolling volatility is the annualised
standard deviation of the daily returns inside that window.  No raise site,
no attribute assignment. -/
noncomputable def calculate_rolling_metrics (pm : PortfolioMetrics) :
    PortfolioMetrics × RollingMetrics :=
  (pm,
    { rolling_return := pctChange (ROLLING_WINDOW - 1) pm.portfolio_values
      rolling_volatility :=
        (List.range pm.portfolio_values.length).map (fun t =>
          if t + 1 < ROLLING_WINDOW then none
          else (stdevQ? (((calculate_returns pm.portfolio_values).drop
                  (t + 1 - ROLLING_WINDOW)).take (ROLLING_WINDOW - 1))).map
                 (fun s => s * Real.sqrt (TRADING_DAYS_PER_YEAR : ℝ))) })

/-- pandas sample covariance (`ddof=1`) of two equal-length series; missing
when lengths differ or fewer than two observations are present. -/
def sampleCovariance? (xs ys : List ℚ) : Option ℚ :=
  if xs.length = ys.length ∧ 2 ≤ xs.length then
    some ((List.zipWith
        (fun x y => (x - xs.sum / xs.length) * (y - ys.sum / ys.length)) xs ys).sum /
      ((xs.length : ℚ) - 1))
  else none

/-- Result of `_calculate_benchmark_metrics`. -/
structure BenchmarkMetrics where
  beta : Option ℚ
  alpha : Option ℚ
  tracking_error : Option ℝ
  information_ratio : Option ℝ

/-- `PortfolioMetrics._calculate_benchmark_metrics`: called at metrics.py
line 32 but absent from the available source.  Modelled from the spec:
"beta = cov(portfolio returns, benchmark returns)/var(benchmark returns);
alpha = annualized_return − (risk_free_rate + beta × (benchmark
annualized_return − risk_free_rate)); tracking_error = stdev(portfolio
returns − benchmark returns) × sqrt(TRADING_DAYS_PER_YEAR);
information_ratio = mean(excess returns)/stdev(excess returns) ×
sqrt(TRADING_DAYS_PER_YEAR), undefined when that stdev is 0", with
"malformed input (... mismatched lengths after alignment)" failing fast and
division-by-zero cases reported as null.  Returns `none` when no benchmark
was supplied (the caller skips the update in that case); no attribute
assignment. -/
noncomputable def calculate_benchmark_metrics (pm : PortfolioMetrics) :
    Except PyError (PortfolioMetrics × Option BenchmarkMetrics) :=
  match pm.benchmark_returns with
  | none => Except.ok (pm, none)
  | some br =>
    if br.length ≠ pm.returns.length then
      Except.error (PyError.valueError "mismatched series lengths")
    else
      let diffs := List.zipWith (fun a b => a - b) pm.returns br
      Except.ok (pm, some
        { beta :=
            match sampleCovariance? pm.returns br, sampleVariance? br with
            | some c, some v => if v = 0 then none else some (c / v)
            | _, _ => none
          alpha :=
            match meanQ? pm.returns, meanQ? br,
                sampleCovariance? pm.returns br, sampleVariance? br with
            | some mp, some mb, some c, some v =>
                if v = 0 then none
                else some (mp * (TRADING_DAYS_PER_YEAR : ℚ) -
                  (RISK_FREE_RATE + c / v * (mb * (TRADING_DAYS_PER_YEAR : ℚ) - RISK_FREE_RATE)))
            | _, _, _, _ => none
          tracking_error :=
            (stdevQ? diffs).map (fun s => s * Real.sqrt (TRADING_DAYS_PER_YEAR : ℝ))
          information_ratio :=
            match sampleVariance? diffs, meanQ? diffs with
            | some v, some m =>
                if v = 0 then none
                else some ((m : ℝ) / Real.sqrt (v : ℝ) * Real.sqrt (TRADING_DAYS_PER_YEAR : ℝ))
            | _, _ => none })

/-- The complete report assembled by `_calculate_all_metrics`. -/
structure MetricsReport where
  ret : ReturnMetrics
  risk : RiskMetrics
  drawdown : DrawdownMetrics
  rolling : RollingMetrics
  benchmark : Option BenchmarkMetrics

/-- `PortfolioMetrics._calculate_all_metrics` (metrics.py lines 22-33):
runs the four sub-computations, then the benchmark-relative ones when a
benchmark is present, and assembles the combined report.  Each step is
threaded through the object state to record that none of them mutates it. -/
noncomputable def calculate_all_metrics (pm : PortfolioMetrics) :
    Except PyError (PortfolioMetrics × MetricsReport) := do
  let (pm1, rm) ← calculate_return_metrics pm
  let (pm2, rk) := calculate_risk_metrics pm1
  let (pm3, dd) := calculate_drawdown_metrics pm2
  let (pm4, ro) := calculate_rolling_metrics pm3
  let (pm5, bm) ← calculate_benchmark_metrics pm4
  Except.ok (pm5, { ret := rm, risk := rk, drawdown := dd, rolling := ro, benchmark := bm })

/-! ## Helper lemmas -/

/-- Under strictly positive values, `pct_change(periods=k).dropna()` is the
series of `k`-step simple returns, indexed directly. -/
theorem dropna_pctChange (k : ℕ) (vs : List ℚ) (hpos : ∀ v ∈ vs, 0 < v) :
    dropna (pctChange k vs) =
      (List.range (vs.length - k)).map (fun i => vs.getD (i + k) 0 / vs.getD i 0 - 1) := by
  unfold dropna pctChange
  rw [List.filterMap_append]
  have h1 : List.filterMap id ((vs.take k).map (fun _ => (none : Option ℚ))) = [] := by
    simp
  have h2 : List.zipWith
        (fun prev cur => if prev = 0 then none else some (cur / prev - 1)) vs (vs.drop k)
      = (List.range (vs.length - k)).map
          (fun i => some (vs.getD (i + k) 0 / vs.getD i 0 - 1)) := by
    apply List.ext_getElem
    · simp [Nat.min_def]
    · intro i hi₁ hi₂
      have hlen : i < vs.length - k := by
        simpa using hi₂
      have hik : i + k < vs.length := by omega
      have hi : i < vs.length := by omega
      rw [List.getElem_zipWith]
      rw [List.getElem_drop]
      have hne : vs[i] ≠ 0 := ne_of_gt (hpos _ (List.getElem_mem hi))
      simp only [List.getElem_map, List.getElem_range, hne, if_neg hne, ite_false,
        List.getD_eq_getElem vs 0 hik, List.getD_eq_getElem vs 0 hi]
      simp only [show k + i = i + k from Nat.add_comm k i]
  rw [h1, h2, List.nil_append]
  have : (fun i => some (vs.getD (i + k) 0 / vs.getD i 0 - 1)) =
      some ∘ (fun i => vs.getD (i + k) 0 / vs.getD i 0 - 1) := rfl
  rw [this, ← List.filterMap_eq_map (fun i => vs.getD (i + k) 0 / vs.getD i 0 - 1),
    List.filterMap_map]
  rfl

/-- Under strictly positive values the daily-returns series keeps one entry
for every consecutive pair. -/
theorem calculate_returns_eq (vs : List ℚ) (hpos : ∀ v ∈ vs, 0 < v) :
    calculate_returns vs =
      (List.range (vs.length - 1)).map (fun i => vs.getD (i + 1) 0 / vs.getD i 0 - 1) :=
  dropna_pctChange 1 vs hpos

/-- Length of the daily-returns series under strictly positive values. -/
theorem calculate_returns_length (vs : List ℚ) (hpos : ∀ v ∈ vs, 0 < v) :
    (calculate_returns vs).length = vs.length - 1 := by
  rw [calculate_returns_eq vs hpos]
  simp

/-! ## C5, C6: the returns sub-computation -/

/-- C5: for a series of `N ≥ 2` strictly positive values, the daily-returns
series has exactly `N − 1` elements, and the element for index `t`
(`1 ≤ t ≤ N − 1`) equals `value[t]/value[t-1] − 1`. -/
theorem returns_series_spec (vs : List ℚ) (_h2 : 2 ≤ vs.length) (hpos : ∀ v ∈ vs, 0 < v) :
    (calculate_returns vs).length = vs.length - 1 ∧
    ∀ t, 1 ≤ t → t ≤ vs.length - 1 →
      (calculate_returns vs).getD (t - 1) 0 = vs.getD t 0 / vs.getD (t - 1) 0 - 1 := by
  refine ⟨calculate_returns_length vs hpos, ?_⟩
  intro t ht1 ht2
  rw [calculate_returns_eq vs hpos]
  have hlt : t - 1 < vs.length - 1 := by omega
  rw [List.getD_eq_getElem _ 0 (by simpa using hlt)]
  simp only [List.getElem_map, List.getElem_range]
  have ht : t - 1 + 1 = t := by omega
  rw [ht]

/-- Witness for C5 at the concrete series `[1, 2, 4]`. -/
theorem returns_series_spec_witness :
    2 ≤ [(1 : ℚ), 2, 4].length ∧ (∀ v ∈ [(1 : ℚ), 2, 4], 0 < v) ∧
    ((calculate_returns [(1 : ℚ), 2, 4]).length = [(1 : ℚ), 2, 4].length - 1 ∧
      ∀ t, 1 ≤ t → t ≤ [(1 : ℚ), 2, 4].length - 1 →
        (calculate_returns [(1 : ℚ), 2, 4]).getD (t - 1) 0 =
          [(1 : ℚ), 2, 4].getD t 0 / [(1 : ℚ), 2, 4].getD (t - 1) 0 - 1) :=
  ⟨by norm_num, by norm_num,
    returns_series_spec [(1 : ℚ), 2, 4] (by norm_num) (by norm_num)⟩

/-- C6 counterexample: constructing the metrics engine on the one-point
series `[5]` does not fail at all — there is no `InsufficientHistoryError`
raise site in `__init__`/`_calculate_returns` — and it silently produces an
empty returns series. -/
theorem init_short_series_counterexample :
    PortfolioMetrics.init [(5 : ℚ)] none =
      { portfolio_values := [5], benchmark_values := none,
        returns := [], benchmark_returns := none } ∧
    calculate_returns [(5 : ℚ)] = [] :=
  ⟨rfl, rfl⟩

/-- C6 amended: constructing the metrics engine on a value series with fewer
than 2 points succeeds (no exception is raised) and silently produces an
empty returns series. -/
theorem init_short_series_yields_empty_returns (vs : List ℚ) (b : Option (List ℚ))
    (h : vs.length < 2) : (PortfolioMetrics.init vs b).returns = [] := by
  match vs with
  | [] => rfl
  | [v] => rfl
  | a :: b' :: l => simp [List.length_cons] at h; omega

/-- Witness for the amended C6 at the concrete series `[5]`. -/
theorem init_short_series_witness :
    [(5 : ℚ)].length < 2 ∧
    (PortfolioMetrics.init [(5 : ℚ)] (some [1, 2])).returns = [] :=
  ⟨by norm_num, init_short_series_yields_empty_returns [(5 : ℚ)] (some [1, 2]) (by norm_num)⟩

/-! ## C4: CAGR -/

/-- Evaluation of `_calculate_return_metrics` on a state whose value series
has a first and a last element. -/
theorem calculate_return_metrics_eq (pm : PortfolioMetrics) (a b : ℚ)
    (hh : pm.portfolio_values.head? = some a) (hl : pm.portfolio_values.getLast? = some b) :
    calculate_return_metrics pm = Except.ok (pm,
      { total_return := (qdiv? b a).map (fun r => r - 1)
        cagr := (qdiv? b a).bind (fun r =>
          (npPowQ r (1 / ((pm.portfolio_values.length : ℚ) / (TRADING_DAYS_PER_YEAR : ℚ)))).map
            (fun x => x - 1))
        annualized_return := (meanQ? pm.returns).map (fun m => m * (TRADING_DAYS_PER_YEAR : ℚ))
        best_year := (dropna (pctChange TRADING_DAYS_PER_YEAR pm.portfolio_values)).max?
        worst_year := (dropna (pctChange TRADING_DAYS_PER_YEAR pm.portfolio_values)).min?
        total_days := pm.portfolio_values.length
        years := (pm.portfolio_values.length : ℚ) / (TRADING_DAYS_PER_YEAR : ℚ) }) := by
  unfold calculate_return_metrics
  rw [hl, hh]
  rfl

/-- C4 amended: the cagr metric is `(value[last]/value[first])^(1/years) − 1`
(with `years = N / TRADING_DAYS_PER_YEAR`, which is positive for every
nonempty series) whenever the value ratio is non-negative, and also when the
ratio is negative but the exponent `1/years` is an integer; when the ratio is
negative and the exponent is non-integral, the NumPy power is NaN and cagr is
reported as null — no exception (in particular no `DomainError`) is raised. -/
theorem cagr_spec (vs : List ℚ) (a b : ℚ)
    (hh : vs.head? = some a) (hl : vs.getLast? = some b) (ha : a ≠ 0) :
    Except.map (fun x => x.2.cagr) (calculate_return_metrics (PortfolioMetrics.init vs none)) =
      Except.ok (
        if 0 ≤ b / a then
          some (((b / a : ℚ) : ℝ) ^
            (((1 : ℚ) / ((vs.length : ℚ) / (TRADING_DAYS_PER_YEAR : ℚ)) : ℚ) : ℝ) - 1)
        else if ((1 : ℚ) / ((vs.length : ℚ) / (TRADING_DAYS_PER_YEAR : ℚ))).den = 1 then
          some (((b / a : ℚ) : ℝ) ^
            (((1 : ℚ) / ((vs.length : ℚ) / (TRADING_DAYS_PER_YEAR : ℚ)) : ℚ) : ℝ) - 1)
        else none) := by
  rw [calculate_return_metrics_eq (PortfolioMetrics.init vs none) a b hh hl]
  rcases le_or_lt 0 (b / a) with hba | hba
  · simp [Except.map, PortfolioMetrics.init, qdiv?, ha, npPowQ, hba]
  · by_cases hden : ((1 : ℚ) / ((vs.length : ℚ) / (TRADING_DAYS_PER_YEAR : ℚ))).den = 1
    · simp [Except.map, PortfolioMetrics.init, qdiv?, ha, npPowQ, hba.not_le, hden]
    · simp [Except.map, PortfolioMetrics.init, qdiv?, ha, npPowQ, hba.not_le, hden]

/-- C4 counterexample: on the series `[1, 1, 1, 1, -1]` the value ratio is
negative (−1), yet `_calculate_return_metrics` completes without raising any
exception — there is no `DomainError` in the code — and the cagr slot holds
the NaN produced by NumPy's power, reported as null. -/
theorem cagr_counterexample :
    (calculate_return_metrics (PortfolioMetrics.init [(1 : ℚ), 1, 1, 1, -1] none)).isOk = true ∧
    Except.map (fun x => x.2.cagr)
        (calculate_return_metrics (PortfolioMetrics.init [(1 : ℚ), 1, 1, 1, -1] none)) =
      Except.ok none := by
  have h := calculate_return_metrics_eq (PortfolioMetrics.init [(1 : ℚ), 1, 1, 1, -1] none)
    1 (-1) rfl rfl
  rw [h]
  refine ⟨rfl, ?_⟩
  simp only [Except.map]
  norm_num [qdiv?, npPowQ, PortfolioMetrics.init, TRADING_DAYS_PER_YEAR, Rat.den]

/-- Witness for the amended C4 at the concrete series `[1, 4]`:
the ratio is `4 ≥ 0` and `years = 2/252`, so cagr is `4^126 − 1`. -/
theorem cagr_spec_witness :
    [(1 : ℚ), 4].head? = some 1 ∧ [(1 : ℚ), 4].getLast? = some 4 ∧ (1 : ℚ) ≠ 0 ∧
    Except.map (fun x => x.2.cagr)
        (calculate_return_metrics (PortfolioMetrics.init [(1 : ℚ), 4] none)) =
      Except.ok (some ((4 : ℝ) ^ (126 : ℝ) - 1)) := by
  refine ⟨rfl, rfl, one_ne_zero, ?_⟩
  have h := cagr_spec [(1 : ℚ), 4] 1 4 rfl rfl one_ne_zero
  rw [h]
  norm_num [TRADING_DAYS_PER_YEAR]

/-! ## C9: best/worst rolling 1-year return -/

/-- C9: `best_year`/`worst_year` are the maximum/minimum of the trailing
252-trading-day return series (`value[t]/value[t-252] − 1` for
`252 ≤ t < N`), and both are reported as null whenever `N ≤ 252`, because the
trailing series is then empty and the pandas max/min of an empty series is
NaN. -/
theorem best_worst_year_spec (vs : List ℚ) (hne : vs ≠ []) (hpos : ∀ v ∈ vs, 0 < v) :
    Except.map (fun x => x.2.best_year)
        (calculate_return_metrics (PortfolioMetrics.init vs none)) =
      Except.ok (((List.range (vs.length - TRADING_DAYS_PER_YEAR)).map
        (fun i => vs.getD (i + TRADING_DAYS_PER_YEAR) 0 / vs.getD i 0 - 1)).max?) ∧
    Except.map (fun x => x.2.worst_year)
        (calculate_return_metrics (PortfolioMetrics.init vs none)) =
      Except.ok (((List.range (vs.length - TRADING_DAYS_PER_YEAR)).map
        (fun i => vs.getD (i + TRADING_DAYS_PER_YEAR) 0 / vs.getD i 0 - 1)).min?) ∧
    (vs.length ≤ TRADING_DAYS_PER_YEAR →
      Except.map (fun x => x.2.best_year)
          (calculate_return_metrics (PortfolioMetrics.init vs none)) = Except.ok none ∧
      Except.map (fun x => x.2.worst_year)
          (calculate_return_metrics (PortfolioMetrics.init vs none)) = Except.ok none) := by
  have hh : vs.head? = some (vs.head hne) := List.head?_eq_head hne
  have hl : vs.getLast? = some (vs.getLast hne) := List.getLast?_eq_getLast vs hne
  have h := calculate_return_metrics_eq (PortfolioMetrics.init vs none)
    (vs.head hne) (vs.getLast hne) hh hl
  rw [h]
  have hroll := dropna_pctChange TRADING_DAYS_PER_YEAR vs hpos
  refine ⟨?_, ?_, ?_⟩
  · simp only [Except.map]
    rw [show (PortfolioMetrics.init vs none).portfolio_values = vs from rfl, hroll]
  · simp only [Except.map]
    rw [show (PortfolioMetrics.init vs none).portfolio_values = vs from rfl, hroll]
  · intro hle
    have hz : vs.length - TRADING_DAYS_PER_YEAR = 0 := Nat.sub_eq_zero_of_le hle
    constructor
    · simp only [Except.map]
      rw [show (PortfolioMetrics.init vs none).portfolio_values = vs from rfl, hroll, hz]
      simp
    · simp only [Except.map]
      rw [show (PortfolioMetrics.init vs none).portfolio_values = vs from rfl, hroll, hz]
      simp

/-- Witness for C9 at the concrete series `[1, 2]` (`N = 2 ≤ 252`): both
rolling 1-year extrema are null. -/
theorem best_worst_year_witness :
    ([(1 : ℚ), 2] ≠ []) ∧ (∀ v ∈ [(1 : ℚ), 2], 0 < v) ∧
    [(1 : ℚ), 2].length ≤ TRADING_DAYS_PER_YEAR ∧
    Except.map (fun x => x.2.best_year)
        (calculate_return_metrics (PortfolioMetrics.init [(1 : ℚ), 2] none)) =
      Except.ok none ∧
    Except.map (fun x => x.2.worst_year)
        (calculate_return_metrics (PortfolioMetrics.init [(1 : ℚ), 2] none)) =
      Except.ok none := by
  refine ⟨by simp, by norm_num, by norm_num [TRADING_DAYS_PER_YEAR], ?_, ?_⟩
  · exact ((best_worst_year_spec [(1 : ℚ), 2] (by simp) (by norm_num)).2.2
      (by norm_num [TRADING_DAYS_PER_YEAR])).1
  · exact ((best_worst_year_spec [(1 : ℚ), 2] (by simp) (by norm_num)).2.2
      (by norm_num [TRADING_DAYS_PER_YEAR])).2

/-! ## C3: Sharpe ratio -/

/-- The sample variance, when defined, is non-negative. -/
theorem sampleVariance?_nonneg (l : List ℚ) (v : ℚ) (h : sampleVariance? l = some v) :
    0 ≤ v := by
  unfold sampleVariance? at h
  split at h
  · exact absurd h (by simp)
  · rename_i hlen
    obtain rfl := (Option.some.injEq _ _).mp h.symm
    apply div_nonneg
    · apply List.sum_nonneg
      intro x hx
      obtain ⟨y, _, rfl⟩ := List.mem_map.mp hx
      positivity
    · have h2 : 2 ≤ l.length := not_lt.mp hlen
      have h2' : (2 : ℚ) ≤ (l.length : ℚ) := by exact_mod_cast h2
      linarith

/-- C3: when the standard deviation `s` of the daily returns is defined and
nonzero, the sharpe ratio equals
`mean(daily returns − risk_free_rate/TRADING_DAYS_PER_YEAR) / s ×
sqrt(TRADING_DAYS_PER_YEAR)`; when `s = 0` it is reported as null. -/
theorem sharpe_ratio_spec (vs : List ℚ) (s : ℝ) (m : ℚ)
    (hs : stdevQ? (calculate_returns vs) = some s)
    (hm : meanQ? ((calculate_returns vs).map
        (fun r => r - RISK_FREE_RATE / (TRADING_DAYS_PER_YEAR : ℚ))) = some m) :
    (s ≠ 0 →
      (calculate_risk_metrics (PortfolioMetrics.init vs none)).2.sharpe_ratio =
        some ((m : ℝ) / s * Real.sqrt (TRADING_DAYS_PER_YEAR : ℝ))) ∧
    (s = 0 →
      (calculate_risk_metrics (PortfolioMetrics.init vs none)).2.sharpe_ratio = none) := by
  unfold stdevQ? at hs
  obtain ⟨v, hv, hsv⟩ := Option.map_eq_some'.mp hs
  have hvnn : 0 ≤ v := sampleVariance?_nonneg _ _ hv
  constructor
  · intro hsne
    have hvne : v ≠ 0 := by
      rintro rfl
      apply hsne
      rw [← hsv]
      simp
    unfold calculate_risk_metrics
    simp only [PortfolioMetrics.init]
    rw [hv, hm]
    simp [hvne, hsv]
  · intro hs0
    have hv0 : v = 0 := by
      have hz : Real.sqrt (v : ℝ) = 0 := by rw [hsv, hs0]
      have := (Real.sqrt_eq_zero (by exact_mod_cast hvnn)).mp hz
      exact_mod_cast this
    unfold calculate_risk_metrics
    simp only [PortfolioMetrics.init]
    rw [hv, hm]
    simp [hv0]

/-- Evaluation rules for `dropna` on literal series. -/
theorem dropna_nil : dropna [] = [] := rfl

/-- A missing entry is dropped. -/
theorem dropna_cons_none (l : List (Option ℚ)) : dropna (none :: l) = dropna l := rfl

/-- A present entry is kept. -/
theorem dropna_cons_some (q : ℚ) (l : List (Option ℚ)) :
    dropna (some q :: l) = q :: dropna l := rfl

/-- Witness for C3 at the concrete series `[1, 2, 3]`: the daily returns are
`[1, 1/2]`, their sample standard deviation is `sqrt(1/8) ≠ 0`, and the mean
excess return is `9449/12600`. -/
theorem sharpe_ratio_witness :
    stdevQ? (calculate_returns [(1 : ℚ), 2, 3]) = some (Real.sqrt (1 / 8 : ℝ)) ∧
    meanQ? ((calculate_returns [(1 : ℚ), 2, 3]).map
        (fun r => r - RISK_FREE_RATE / (TRADING_DAYS_PER_YEAR : ℚ))) =
      some (9449 / 12600) ∧
    Real.sqrt (1 / 8 : ℝ) ≠ 0 ∧
    (calculate_risk_metrics (PortfolioMetrics.init [(1 : ℚ), 2, 3] none)).2.sharpe_ratio =
      some (((9449 / 12600 : ℚ) : ℝ) / Real.sqrt (1 / 8 : ℝ) *
        Real.sqrt (TRADING_DAYS_PER_YEAR : ℝ)) := by
  have hv : sampleVariance? (calculate_returns [(1 : ℚ), 2, 3]) = some (1 / 8) := by
    norm_num [calculate_returns, pctChange, sampleVariance?,
      dropna_cons_some, dropna_cons_none, dropna_nil]
  have hs : stdevQ? (calculate_returns [(1 : ℚ), 2, 3]) = some (Real.sqrt (1 / 8 : ℝ)) := by
    simp only [stdevQ?, hv, Option.map_some']
    norm_num
  have hm : meanQ? ((calculate_returns [(1 : ℚ), 2, 3]).map
      (fun r => r - RISK_FREE_RATE / (TRADING_DAYS_PER_YEAR : ℚ))) = some (9449 / 12600) := by
    norm_num [calculate_returns, pctChange, meanQ?, RISK_FREE_RATE,
      TRADING_DAYS_PER_YEAR, dropna_cons_some, dropna_cons_none, dropna_nil]
  have hne : Real.sqrt (1 / 8 : ℝ) ≠ 0 := ne_of_gt (Real.sqrt_pos.mpr (by norm_num))
  exact ⟨hs, hm, hne, (sharpe_ratio_spec [(1 : ℚ), 2, 3] _ _ hs hm).1 hne⟩

/-! ## C2, C10: the full metrics pipeline -/

/-- Reduction of an `Except` bind on a success value. -/
theorem ebind_ok {ε α β : Type} (a : α) (f : α → Except ε β) :
    (Except.ok a >>= f) = f a := rfl

/-- Reduction of an `Except` bind on an error value. -/
theorem ebind_error {ε α β : Type} (e : ε) (f : α → Except ε β) :
    ((Except.error e : Except ε α) >>= f) = Except.error e := rfl

/-- `_calculate_return_metrics` assigns no attribute: on success the object
state is returned unchanged. -/
theorem calculate_return_metrics_fst (pm : PortfolioMetrics) (x)
    (h : calculate_return_metrics pm = Except.ok x) : x.1 = pm := by
  cases hl : pm.portfolio_values.getLast? with
  | none =>
    unfold calculate_return_metrics at h
    rw [hl] at h
    exact absurd h (by simp [ebind_error])
  | some b =>
    cases hh : pm.portfolio_values.head? with
    | none =>
      unfold calculate_return_metrics at h
      rw [hl, hh] at h
      exact absurd h (by simp [ebind_error, ebind_ok])
    | some a =>
      rw [calculate_return_metrics_eq pm a b hh hl] at h
      cases Except.ok.inj h
      rfl

/-- `_calculate_benchmark_metrics` assigns no attribute: on success the
object state is returned unchanged. -/
theorem calculate_benchmark_metrics_fst (pm : PortfolioMetrics) (z)
    (h : calculate_benchmark_metrics pm = Except.ok z) : z.1 = pm := by
  unfold calculate_benchmark_metrics at h
  split at h
  · cases Except.ok.inj h; rfl
  · split at h
    · exact absurd h (by simp)
    · cases Except.ok.inj h; rfl

/-- Without a benchmark, the benchmark sub-computation reports nothing. -/
theorem calculate_benchmark_metrics_none (pm : PortfolioMetrics)
    (h : pm.benchmark_returns = none) :
    calculate_benchmark_metrics pm = Except.ok (pm, none) := by
  unfold calculate_benchmark_metrics
  rw [h]

/-- With an aligned benchmark, the benchmark sub-computation succeeds. -/
theorem calculate_benchmark_metrics_ok (pm : PortfolioMetrics) (br : List ℚ)
    (h : pm.benchmark_returns = some br) (hlen : br.length = pm.returns.length) :
    ∃ bm, calculate_benchmark_metrics pm = Except.ok (pm, some bm) := by
  unfold calculate_benchmark_metrics
  rw [h]
  have hcond : ¬ (br.length ≠ pm.returns.length) := by simp [hlen]
  simp only [if_neg hcond]
  exact ⟨_, rfl⟩

/-- `_calculate_all_metrics` threads the object state through unchanged. -/
theorem calculate_all_metrics_fst (pm : PortfolioMetrics) (x)
    (h : calculate_all_metrics pm = Except.ok x) : x.1 = pm := by
  unfold calculate_all_metrics at h
  cases hr : calculate_return_metrics pm with
  | error e => rw [hr, ebind_error] at h; exact absurd h (by simp)
  | ok y =>
    obtain ⟨pm1, rm⟩ := y
    have h1 : pm1 = pm := calculate_return_metrics_fst pm (pm1, rm) hr
    rw [hr, ebind_ok] at h
    simp only [calculate_risk_metrics, calculate_drawdown_metrics,
      calculate_rolling_metrics] at h
    cases hb : calculate_benchmark_metrics pm1 with
    | error e => rw [hb, ebind_error] at h; exact absurd h (by simp)
    | ok z =>
      obtain ⟨pm5, bm⟩ := z
      have h5 : pm5 = pm1 := calculate_benchmark_metrics_fst _ _ hb
      rw [hb, ebind_ok] at h
      cases Except.ok.inj h
      simp [h5, h1]

/-- Evaluation of `_calculate_all_metrics` from the evaluations of its two
fallible steps. -/
theorem calculate_all_metrics_ok (pm : PortfolioMetrics) (rm : ReturnMetrics)
    (bm : Option BenchmarkMetrics)
    (hr : calculate_return_metrics pm = Except.ok (pm, rm))
    (hb : calculate_benchmark_metrics pm = Except.ok (pm, bm)) :
    calculate_all_metrics pm = Except.ok (pm,
      { ret := rm
        risk := (calculate_risk_metrics pm).2
        drawdown := (calculate_drawdown_metrics pm).2
        rolling := (calculate_rolling_metrics pm).2
        benchmark := bm }) := by
  unfold calculate_all_metrics
  rw [hr, ebind_ok]
  simp only [calculate_risk_metrics, calculate_drawdown_metrics, calculate_rolling_metrics]
  rw [hb, ebind_ok]

/-- C2: on every valid input — at least two strictly positive portfolio
values, and an optional benchmark aligned to the same length with strictly
positive values — `_calculate_all_metrics` produces a complete report and
never raises; degenerate metrics inside the report are explicit nulls, e.g.
a zero variance of the daily returns makes the sharpe ratio null. -/
theorem analyze_total_on_valid_input (vs : List ℚ) (b : Option (List ℚ))
    (h2 : 2 ≤ vs.length) (hpos : ∀ v ∈ vs, 0 < v)
    (hb : ∀ bs ∈ b, bs.length = vs.length ∧ ∀ v ∈ bs, 0 < v) :
    (calculate_all_metrics (PortfolioMetrics.init vs b)).isOk = true ∧
    (sampleVariance? (calculate_returns vs) = some 0 →
      Except.map (fun x => x.2.risk.sharpe_ratio)
        (calculate_all_metrics (PortfolioMetrics.init vs b)) = Except.ok none) := by
  have hne : vs ≠ [] := by rintro rfl; simp at h2
  have hr := calculate_return_metrics_eq (PortfolioMetrics.init vs b)
    (vs.head hne) (vs.getLast hne) (List.head?_eq_head hne) (List.getLast?_eq_getLast vs hne)
  have hbm : ∃ bm, calculate_benchmark_metrics (PortfolioMetrics.init vs b) =
      Except.ok (PortfolioMetrics.init vs b, bm) := by
    cases b with
    | none => exact ⟨none, calculate_benchmark_metrics_none _ rfl⟩
    | some bs =>
      obtain ⟨hlen, hbpos⟩ := hb bs rfl
      obtain ⟨bm, hbm⟩ := calculate_benchmark_metrics_ok (PortfolioMetrics.init vs (some bs))
        (calculate_returns bs) rfl
        (by
          rw [show (PortfolioMetrics.init vs (some bs)).returns = calculate_returns vs from rfl,
            calculate_returns_length bs hbpos, calculate_returns_length vs hpos, hlen])
      exact ⟨some bm, hbm⟩
  obtain ⟨bm, hbmeq⟩ := hbm
  have hall := calculate_all_metrics_ok _ _ _ hr hbmeq
  constructor
  · rw [hall]; rfl
  · intro hvar0
    rw [hall]
    simp only [Except.map]
    unfold calculate_risk_metrics
    rw [show (PortfolioMetrics.init vs b).returns = calculate_returns vs from rfl, hvar0]
    rcases hm : meanQ? ((calculate_returns vs).map
        (fun r => r - RISK_FREE_RATE / (TRADING_DAYS_PER_YEAR : ℚ))) with _ | m <;>
      simp [hm]

/-- Witness for C2 at the degenerate constant series `[1, 1, 1]` (zero
variance of its returns) with no benchmark. -/
theorem analyze_total_witness :
    2 ≤ [(1 : ℚ), 1, 1].length ∧ (∀ v ∈ [(1 : ℚ), 1, 1], 0 < v) ∧
    (∀ bs ∈ (none : Option (List ℚ)), bs.length = [(1 : ℚ), 1, 1].length ∧ ∀ v ∈ bs, 0 < v) ∧
    sampleVariance? (calculate_returns [(1 : ℚ), 1, 1]) = some 0 ∧
    (calculate_all_metrics (PortfolioMetrics.init [(1 : ℚ), 1, 1] none)).isOk = true ∧
    Except.map (fun x => x.2.risk.sharpe_ratio)
        (calculate_all_metrics (PortfolioMetrics.init [(1 : ℚ), 1, 1] none)) =
      Except.ok none := by
  have hvar : sampleVariance? (calculate_returns [(1 : ℚ), 1, 1]) = some 0 := by
    norm_num [calculate_returns, pctChange, sampleVariance?,
      dropna_cons_some, dropna_cons_none, dropna_nil]
  have h := analyze_total_on_valid_input [(1 : ℚ), 1, 1] none (by norm_num) (by norm_num)
    (by simp)
  exact ⟨by norm_num, by norm_num, by simp, hvar, h.1, h.2 hvar⟩

/-- C10: the metrics engine never mutates its inputs — after construction
the stored series equal the supplied ones, and computing all metrics
leaves the object state (hence both stored series) unchanged. -/
theorem metrics_engine_preserves_inputs (vs : List ℚ) (b : Option (List ℚ)) :
    (PortfolioMetrics.init vs b).portfolio_values = vs ∧
    (PortfolioMetrics.init vs b).benchmark_values = b ∧
    Except.map (fun x => x.1.portfolio_values)
        (calculate_all_metrics (PortfolioMetrics.init vs b)) =
      Except.map (fun _ => vs) (calculate_all_metrics (PortfolioMetrics.init vs b)) ∧
    Except.map (fun x => x.1.benchmark_values)
        (calculate_all_metrics (PortfolioMetrics.init vs b)) =
      Except.map (fun _ => b) (calculate_all_metrics (PortfolioMetrics.init vs b)) := by
  refine ⟨rfl, rfl, ?_, ?_⟩ <;>
  · cases hx : calculate_all_metrics (PortfolioMetrics.init vs b) with
    | error e => rfl
    | ok x =>
      have hfst := calculate_all_metrics_fst _ _ hx
      simp [Except.map, hfst, PortfolioMetrics.init]

/-! ## C7: allocation validation (config.py lines 107-112) -/

/-- `config.validate_allocation`: `if not allocation: return False`, then
`abs(sum(allocation.values()) - 1.0) < 1e-6`.  The mapping is modelled as an
association list of (symbol, weight) pairs. -/
def validate_allocation (allocation : List (String × ℚ)) : Bool :=
  if allocation.isEmpty then false
  else decide (|(allocation.map Prod.snd).sum - 1| < 1 / 1000000)

/-- C7 counterexample: the mapping `{A: 3/2, B: -1/2}` contains a negative
weight, sums to exactly 1.0, and is accepted by `validate_allocation` — the
function performs no positivity check and no `InvalidPolicy` rejection
exists in the code. -/
theorem validate_allocation_counterexample :
    validate_allocation [("A", (3 : ℚ) / 2), ("B", -1 / 2)] = true ∧
    (-1 / 2 : ℚ) ≤ 0 ∧
    ([("A", (3 : ℚ) / 2), ("B", -1 / 2)].map Prod.snd).sum = 1 := by
  refine ⟨?_, by norm_num, by norm_num⟩
  norm_num [validate_allocation]

/-- C7 amended: allocation validation accepts a weight mapping if and only
if it is non-empty and its weights sum to 1.0 within tolerance 1e-6; the
sign of the individual weights is not checked. -/
theorem validate_allocation_spec (allocation : List (String × ℚ)) :
    validate_allocation allocation = true ↔
      allocation ≠ [] ∧ |(allocation.map Prod.snd).sum - 1| < 1 / 1000000 := by
  unfold validate_allocation
  rcases allocation with _ | ⟨p, rest⟩
  · simp
  · simp

/-! ## etf_data.py: data model -/

/-- A pandas price DataFrame, abstracted to its column names (Python strings
as `List Char`) and its date index (dates as `ℤ`). -/
structure PriceFrame where
  cols : List (List Char)
  idx : List ℤ
deriving DecidableEq

/-- The keys of `config.SUPPORTED_ETFS` (config.py lines 50-78). -/
def SUPPORTED_ETFS : List (List Char) :=
  ["SPY", "QQQ", "VOO", "VOOG", "VOOV", "VWO", "EEM", "IWM", "GLD", "SLV",
   "USO", "BIL", "VGT", "VTI", "VXUS", "VEA", "AGG", "BND", "XLF", "XLE",
   "XLI", "VNQ", "VHT", "VCR", "VIG", "TLT", "BNDX"].map String.toList

/-- `config.YAHOO_FINANCE_CACHE_DAYS = 7` (config.py line 35). -/
def YAHOO_FINANCE_CACHE_DAYS : ℤ := 7

/-- Python `str.upper()`. -/
def pyUpper (s : List Char) : List Char := s.map Char.toUpper

/-- Python's `needle in hay` substring test on strings. -/
def strContains (needle : List Char) : List Char → Bool
  | [] => needle.isEmpty
  | c :: t => needle.isPrefixOf (c :: t) || strContains needle t

/-- Python `col.split('_')[0]`: the prefix of `col` before its first
underscore (all of `col` when it has none). -/
def splitHead (col : List Char) : List Char := col.takeWhile (fun c => c != '_')

/-- The comprehension in `_is_cache_fresh` (etf_data.py line 65):
`[col.split('_')[0] for col in cached_data.columns if '_close' in col]`.
The test is case-sensitive: a column named `SPY_Close` does NOT match. -/
def cachedSymbolsOf (f : PriceFrame) : List (List Char) :=
  (f.cols.filter (fun c => strContains "_close".toList c)).map splitHead

/-- `ETFDataManager._is_cache_fresh` (etf_data.py lines 52-76).  The cache
state is `none` when no cache file exists, otherwise its age in days and the
parsed frame.  Checks, in order: file exists; age within
`YAHOO_FINANCE_CACHE_DAYS`; every requested symbol occurs among the cached
symbols; the cached index covers the requested range (a comparison against
the min/max of an empty index is false, as with pandas `NaT`). -/
def is_cache_fresh (cache : Option (ℤ × PriceFrame)) (symbols : List (List Char))
    (start_date end_date : ℤ) : Bool :=
  match cache with
  | none => false
  | some (age, f) =>
    if YAHOO_FINANCE_CACHE_DAYS < age then false
    else if ¬ (symbols.all (fun s => (cachedSymbolsOf f).contains s)) then false
    else if (f.idx.min?.elim false (fun lo => decide (start_date < lo))) ||
        (f.idx.max?.elim false (fun hi => decide (hi < end_date))) then false
    else true

/-- `ETFDataManager._load_cached_data` (etf_data.py lines 153-165): filter
the cached rows to the requested date range, then keep, in request order,
every column whose name starts with `f"{symbol}_"` for a requested symbol. -/
def load_cached_data (f : PriceFrame) (symbols : List (List Char))
    (start_date end_date : ℤ) : PriceFrame :=
  { idx := f.idx.filter (fun d => decide (start_date ≤ d) && decide (d ≤ end_date))
    cols := symbols.flatMap (fun s =>
      f.cols.filter (fun c => (s ++ ['_']).isPrefixOf c)) }

/-- One iteration of the download loop in `_download_etf_data` (etf_data.py
lines 82-98).  `fetch` is the external `yf.Ticker(...).history(...)` call:
`none` models an exception (caught, logged, iteration skipped).  On an empty
history the iteration is skipped.  Otherwise the body calls
`self._clean_data(data, symbol)` — but the class defines `_clean_etf_data`
only, so the call raises `AttributeError`, which the blanket
`except Exception` catches: the iteration is skipped in every case. -/
def download_symbol (fetch : List Char → Option PriceFrame) (symbol : List Char) :
    Option PriceFrame :=
  match fetch symbol with
  | none => none
  | some f => if f.idx.isEmpty then none else none

/-- `ETFDataManager._combine_etf_data` (etf_data.py lines 125-143),
abstracted to the column/index model: the common index range intersected
over the per-symbol frames and all columns together.  (The development shows
this function is unreachable.) -/
def combine_etf_data (frames : List PriceFrame) : PriceFrame :=
  { idx := (frames.map PriceFrame.idx).foldr (fun a b => a.inter b) []
    cols := frames.flatMap PriceFrame.cols }

/-- `ETFDataManager._download_etf_data` (etf_data.py lines 78-105): loop
over the symbols collecting the per-symbol data, raise
`ValueError("No ETF data could be downloaded")` when nothing was collected,
otherwise combine. -/
def download_etf_data (fetch : List Char → Option PriceFrame)
    (symbols : List (List Char)) : Except PyError PriceFrame :=
  let all_data := symbols.filterMap (download_symbol fetch)
  if all_data.isEmpty then
    Except.error (PyError.valueError "No ETF data could be downloaded")
  else Except.ok (combine_etf_data all_data)

/-- `ETFDataManager.get_etf_data` (etf_data.py lines 31-50): keep only the
requested symbols whose upper-cased form is a supported ETF (the others are
silently dropped); fail when none remains; serve from the cache when it is
fresh for the remaining symbols; otherwise download.  (The final
`_cache_data` step only writes the cache file.) -/
def get_etf_data (cache : Option (ℤ × PriceFrame))
    (fetch : List Char → Option PriceFrame) (symbols : List (List Char))
    (start_date end_date : ℤ) : Except PyError PriceFrame :=
  let valid_symbols := symbols.filter (fun s => SUPPORTED_ETFS.contains (pyUpper s))
  if valid_symbols.isEmpty then
    Except.error (PyError.valueError "No valid ETF symbols provided")
  else
    match cache with
    | some (age, f) =>
      if is_cache_fresh (some (age, f)) valid_symbols start_date end_date then
        Except.ok (load_cached_data f valid_symbols start_date end_date)
      else download_etf_data fetch valid_symbols
    | none => download_etf_data fetch valid_symbols

/-- A returned table covers a symbol when it has at least one
`f"{symbol}_..."` column for it. -/
def covers_symbol (f : PriceFrame) (s : List Char) : Bool :=
  f.cols.any (fun c => (s ++ ['_']).isPrefixOf c)

/-- Every iteration of the download loop is skipped: either the fetch fails
or is empty, or the `self._clean_data` call raises `AttributeError`. -/
theorem download_symbol_eq_none (fetch : List Char → Option PriceFrame)
    (s : List Char) : download_symbol fetch s = none := by
  unfold download_symbol
  cases fetch s with
  | none => rfl
  | some f => simp

/-- `_download_etf_data` never returns data: with every iteration skipped,
`all_data` stays empty and the `ValueError` is raised unconditionally. -/
theorem download_etf_data_always_fails (fetch : List Char → Option PriceFrame)
    (symbols : List (List Char)) :
    download_etf_data fetch symbols =
      Except.error (PyError.valueError "No ETF data could be downloaded") := by
  unfold download_etf_data
  have hnil : symbols.filterMap (download_symbol fetch) = [] :=
    List.filterMap_eq_nil_iff.mpr (fun a _ => download_symbol_eq_none fetch a)
  simp [hnil]

/-- A character of the needle of a successful substring test is a character
of the haystack. -/
theorem mem_of_strContains (needle : List Char) (hay : List Char)
    (h : strContains needle hay = true) (a : Char) (ha : a ∈ needle) : a ∈ hay := by
  induction hay with
  | nil =>
    unfold strContains at h
    rw [List.isEmpty_iff] at h
    subst h
    cases ha
  | cons c t ih =>
    unfold strContains at h
    rcases (Bool.or_eq_true _ _).mp h with h1 | h2
    · exact (List.isPrefixOf_iff_prefix.mp h1).subset ha
    · exact List.mem_cons_of_mem _ (ih h2)

/-- When `col.split('_')[0] = sym` and `col` contains an underscore at all,
`col` starts with `f"{sym}_"`. -/
theorem isPrefixOf_of_splitHead (col sym : List Char) (hs : splitHead col = sym)
    (hu : '_' ∈ col) : (sym ++ ['_']).isPrefixOf col = true := by
  subst hs
  unfold splitHead
  induction col with
  | nil => cases hu
  | cons c t ih =>
    by_cases hc : c = '_'
    · subst hc
      simp [List.takeWhile_cons, List.isPrefixOf]
    · have hut : '_' ∈ t := by
        rcases List.mem_cons.mp hu with h | h
        · exact absurd h.symm hc
        · exact h
      simp [List.takeWhile_cons, hc, List.isPrefixOf, ih hut]

/-- C8 amended: whenever `get_etf_data` returns a table at all, the table
covers every requested symbol that is supported (valid); requested symbols
that are not in `SUPPORTED_ETFS` are silently dropped before the request is
served, and the download path always raises, so only the cache path can
return data. -/
theorem get_etf_data_covers_valid (cache : Option (ℤ × PriceFrame))
    (fetch : List Char → Option PriceFrame) (symbols : List (List Char))
    (start_date end_date : ℤ) (f : PriceFrame)
    (h : get_etf_data cache fetch symbols start_date end_date = Except.ok f) :
    ∀ sym ∈ symbols.filter (fun s0 => SUPPORTED_ETFS.contains (pyUpper s0)),
      covers_symbol f sym = true := by
  intro sym hmem
  simp only [get_etf_data] at h
  split at h
  · exact absurd h (by simp)
  · split at h
    · rename_i age fr
      split at h
      · rename_i hfresh
        cases Except.ok.inj h
        simp only [is_cache_fresh] at hfresh
        split_ifs at hfresh with hage hnall hrange
        have hallmem := List.all_eq_true.mp hnall
        have hsymmem : sym ∈ cachedSymbolsOf fr := by
          have := hallmem sym hmem
          simpa [List.contains] using this
        obtain ⟨col, hcolmem, hcolsym⟩ := List.mem_map.mp hsymmem
        obtain ⟨hcolcols, hcolclose⟩ := List.mem_filter.mp hcolmem
        have hunder : '_' ∈ col :=
          mem_of_strContains _ col hcolclose '_' (by decide)
        have hpref := isPrefixOf_of_splitHead col sym hcolsym hunder
        unfold covers_symbol load_cached_data
        apply List.any_eq_true.mpr
        refine ⟨col, ?_, hpref⟩
        apply List.mem_flatMap.mpr
        exact ⟨sym, hmem, List.mem_filter.mpr ⟨hcolcols, hpref⟩⟩
      · rw [download_etf_data_always_fails] at h
        exact absurd h (by simp)
    · rw [download_etf_data_always_fails] at h
      exact absurd h (by simp)

/-- C8 counterexample: requesting `["SPY", "ZZZZ"]` where `ZZZZ` is not a
supported symbol, with a fresh cache for `SPY`, returns a table covering
only `SPY` — a strict subset of the requested symbols — instead of raising:
the unsupported symbol's data cannot be obtained, yet it is silently
omitted. -/
theorem get_etf_data_partial_counterexample :
    get_etf_data (some (0, { cols := ["SPY_close".toList], idx := [0, 10000] }))
        (fun _ => none) ["SPY".toList, "ZZZZ".toList] 0 100 =
      Except.ok { cols := ["SPY_close".toList], idx := [0] } ∧
    covers_symbol { cols := ["SPY_close".toList], idx := [(0 : ℤ)] } "SPY".toList = true ∧
    covers_symbol { cols := ["SPY_close".toList], idx := [(0 : ℤ)] } "ZZZZ".toList = false :=
  ⟨rfl, rfl, rfl⟩

/-- Witness for the amended C8: a request for the single supported symbol
`SPY`, served from the same cache, covers every valid requested symbol. -/
theorem get_etf_data_covers_witness :
    get_etf_data (some (0, { cols := ["SPY_close".toList], idx := [0, 10000] }))
        (fun _ => none) ["SPY".toList] 0 100 =
      Except.ok { cols := ["SPY_close".toList], idx := [0] } ∧
    ∀ sym ∈ ["SPY".toList].filter (fun s0 => SUPPORTED_ETFS.contains (pyUpper s0)),
      covers_symbol { cols := ["SPY_close".toList], idx := [(0 : ℤ)] } sym = true := by
  refine ⟨rfl, ?_⟩
  exact get_etf_data_covers_valid
    (some (0, { cols := ["SPY_close".toList], idx := [0, 10000] }))
    (fun _ => none) ["SPY".toList] 0 100
    { cols := ["SPY_close".toList], idx := [0] } rfl
